import Mathlib

/-
  Verification development for the enterprise-graph ingestion engine.

  Shallow embedding of the identity-resolution and incremental-sync core:
  * src/common/identity_resolver.py        (get_or_create_person)
  * src/common/person_cache.py             (PersonCache)
  * src/app/modules/github/process_github_user.py
  * src/modules/github/retry_with_backoff.py
  * src/modules/github/process_commits.py, new_commit_handler.py
  * src/modules/github/process_pull_requests.py,
    src/app/modules/github/get_fully_synced_pr_numbers.py
  * src/modules/jira/team_stub_handler.py
  * src/modules/github/process_repo.py,
    src/app/modules/github/repo_last_synced_at.py

  The graph store (Neo4j) is modelled as in-memory lists of nodes; Cypher
  MERGE / lookup queries are modelled by the list operations they perform.
  The db.models merge helpers are not part of src/ and are modelled from the
  spec (section 6): idempotent upsert keyed by the node's unique string id.

  Python truthiness on optional strings (None and "" are falsy) is modelled
  by pyTruthy; Python str.lower() is modelled by pyLower.
-/

/-- Python truthiness of an optional string: None and the empty string are falsy. -/
def pyTruthy : Option String → Bool
  | none => false
  | some s => !(s == "")

/-- Python str.lower(), modelled character-wise (ASCII-adequate for this code base). -/
def pyLower (s : String) : String := ⟨s.data.map Char.toLower⟩

/-- Value of a truthy optional string (defaults to "" on the falsy cases). -/
def pyGet (s : Option String) : String := s.getD ""

/-- A Person node as constructed by identity resolution
(src/common/identity_resolver.py lines 101-111 and person_cache.py lines 134-144). -/
structure Person where
  id : String
  name : String
  email : Option String
  title : String
  role : String
  seniority : String
  hire_date : String
  is_manager : Bool
  url : Option String
deriving Repr, DecidableEq

/-- The Cypher lookup MATCH (p:Person) WHERE p.email = $email RETURN p.id LIMIT 1
(identity_resolver.py lines 83-91, person_cache.py lines 111-119): first Person
node in the store whose stored email equals the queried email. -/
def lookupPersonIdByEmail (store : List Person) (email : String) : Option String :=
  (store.find? (fun p => p.email == some email)).map Person.id

/-- Modelled from the spec: db.models.merge_person is not under src/; section 6
specifies an idempotent upsert of a node keyed by its unique string id
(create if absent, otherwise overwrite that node's properties). -/
def merge_person (store : List Person) (p : Person) : List Person :=
  if store.any (fun q => q.id == p.id) then
    store.map (fun q => if q.id == p.id then p else q)
  else
    store ++ [p]

/-- src/common/identity_resolver.py get_or_create_person (lines 61-116):
normalize the email (empty string becomes absent), derive the canonical person
id (email first, then provider plus external id, else fail with a null id),
look up an existing Person by email, and otherwise create a new Person node.
Returns ((person_id, is_new), updated store). -/
def get_or_create_person (store : List Person) (email : Option String) (name : String)
    (provider : Option String) (external_id : Option String) (url : Option String) :
    (Option String × Bool) × List Person :=
  let email := if pyTruthy email then email else none
  let personId? : Option String :=
    match email with
    | some e => some ("person_" ++ e)
    | none =>
        if pyTruthy provider && pyTruthy external_id then
          some ("person_" ++ pyGet provider ++ "_" ++ pyGet external_id)
        else
          none
  match personId? with
  | none => ((none, false), store)
  | some person_id =>
      let created : (Option String × Bool) × List Person :=
        ((some person_id, true),
         merge_person store ⟨person_id, name, email, "", "", "", "", false, url⟩)
      match email with
      | some e =>
          match lookupPersonIdByEmail store e with
          | some existing_id => ((some existing_id, false), store)
          | none => created
      | none => created

/-- An IdentityMapping node (db.models field set as used by person_cache.py and
process_github_user.py; last_updated_at is optional because
new_commit_handler.py omits it). -/
structure IdentityMapping where
  id : String
  provider : String
  username : String
  email : String
  last_updated_at : Option String
deriving Repr, DecidableEq

/-- A directed typed relationship as passed to the db.models merge helpers. -/
structure Relationship where
  type : String
  from_id : String
  to_id : String
  from_type : String
  to_type : String
deriving Repr, DecidableEq

/-- Association-list lookup, modelling Python dict membership plus indexing. -/
def alookup {α β : Type} [BEq α] (l : List (α × β)) (k : α) : Option β :=
  (l.find? (fun kv => kv.1 == k)).map (fun kv => kv.2)

/-- Association-list store, modelling Python dict assignment (insertion order
preserved, existing key overwritten in place). -/
def aset {α β : Type} [BEq α] (l : List (α × β)) (k : α) (v : β) : List (α × β) :=
  if (l.find? (fun kv => kv.1 == k)).isSome then
    l.map (fun kv => if kv.1 == k then (k, v) else kv)
  else
    l ++ [(k, v)]

/-- src/common/person_cache.py PersonCache state (lines 31-47): the two lookup
tables, the pending identity-link queue keyed by identity id, the flushed
person-id set, and the statistics counters. -/
structure PersonCache where
  email_cache : List (String × String)
  provider_cache : List ((String × String) × String)
  pending_identities : List (String × (IdentityMapping × Relationship))
  flushed_persons : List String
  cache_hits : Nat
  cache_misses : Nat
  db_queries : Nat
deriving Repr, DecidableEq

/-- A fresh PersonCache (PersonCache.__init__). -/
def PersonCache.empty : PersonCache := ⟨[], [], [], [], 0, 0, 0⟩

/-- src/common/person_cache.py PersonCache.get_or_create_person (lines 49-156):
try the email table (or the provider table when no email); on a hit return the
cached id; on a miss derive the canonical id like the resolver, query the store
by email when an email is present, adopt the found id or create a new Person,
and populate both lookup tables. Returns ((person_id, is_new), cache, store). -/
def PersonCache.get_or_create_person (c : PersonCache) (store : List Person)
    (email : Option String) (name : String) (provider : Option String)
    (external_id : Option String) (url : Option String) :
    (Option String × Bool) × PersonCache × List Person :=
  let email := if pyTruthy email then email else none
  let hit? : Option String :=
    match email with
    | some e => alookup c.email_cache e
    | none =>
        if pyTruthy provider && pyTruthy external_id then
          alookup c.provider_cache (pyGet provider, pyGet external_id)
        else
          none
  match hit? with
  | some person_id =>
      ((some person_id, false), { c with cache_hits := c.cache_hits + 1 }, store)
  | none =>
      let c := { c with cache_misses := c.cache_misses + 1 }
      let personId? : Option String :=
        match email with
        | some e => some ("person_" ++ e)
        | none =>
            if pyTruthy provider && pyTruthy external_id then
              some ("person_" ++ pyGet provider ++ "_" ++ pyGet external_id)
            else
              none
      match personId? with
      | none => ((none, false), c, store)
      | some person_id =>
          let cachesWith : PersonCache → String → PersonCache := fun c0 pid =>
            let c1 :=
              match email with
              | some e => { c0 with email_cache := aset c0.email_cache e pid }
              | none => c0
            if pyTruthy provider && pyTruthy external_id then
              let pc := aset c1.provider_cache (pyGet provider, pyGet external_id) pid
              { c1 with provider_cache := pc }
            else
              c1
          match email with
          | some e =>
              let c := { c with db_queries := c.db_queries + 1 }
              match lookupPersonIdByEmail store e with
              | some existing_id =>
                  ((some existing_id, false), cachesWith c existing_id, store)
              | none =>
                  ((some person_id, true), cachesWith c person_id,
                   merge_person store ⟨person_id, name, email, "", "", "", "", false, url⟩)
          | none =>
              ((some person_id, true), cachesWith c person_id,
               merge_person store ⟨person_id, name, email, "", "", "", "", false, url⟩)

/-- src/common/person_cache.py PersonCache.queue_identity_mapping (lines 158-204):
skip when the identity id is already pending or when the person id was already
flushed; otherwise append the identity-link record to the pending queue. -/
def PersonCache.queue_identity_mapping (c : PersonCache) (person_id : String)
    (identity_id : String) (provider : String) (username : String)
    (email : Option String) (last_updated_at : String) : PersonCache :=
  if (alookup c.pending_identities identity_id).isSome then
    c
  else if c.flushed_persons.contains person_id then
    c
  else
    let identity : IdentityMapping :=
      ⟨identity_id, provider, username, if pyTruthy email then pyGet email else "",
       some last_updated_at⟩
    let maps_to_rel : Relationship :=
      ⟨"MAPS_TO", identity_id, person_id, "IdentityMapping", "Person"⟩
    { c with pending_identities :=
        c.pending_identities ++ [(identity_id, (identity, maps_to_rel))] }

/-- src/common/person_cache.py PersonCache.flush_identity_mappings (lines 206-224):
write every pending identity-link record (merge_identity_mapping calls, returned
here as the write list), mark each involved person id as flushed, and clear the
pending map. A no-op when nothing is pending. -/
def PersonCache.flush_identity_mappings (c : PersonCache) :
    PersonCache × List (IdentityMapping × Relationship) :=
  if c.pending_identities.isEmpty then
    (c, [])
  else
    let writes := c.pending_identities.map (fun kv => kv.2)
    let flushed :=
      c.flushed_persons ++ c.pending_identities.map (fun kv => kv.2.2.to_id)
    ({ c with pending_identities := [], flushed_persons := flushed }, writes)

/-- A GitHub user object as consumed by process_github_user.py: optional fields
model attributes that may be absent or None. -/
structure GithubUser where
  login : String
  name : Option String
  email : Option String
  html_url : Option String
deriving Repr, DecidableEq

/-- src/app/modules/github/process_github_user.py lines 88-91: the email string
extracted from the GitHub user, lower-cased at source when non-empty. -/
def githubUserEmailNormalized (u : GithubUser) : String :=
  let github_email := if pyTruthy u.email then pyGet u.email else ""
  if github_email == "" then "" else pyLower github_email

/-- src/app/modules/github/process_github_user.py process_github_user
(lines 59-148), person-resolution portion: session-cache check, field
extraction with source-side email lower-casing, identity resolution, and the
IdentityMapping merge. Returns (person_id?, persons, identities, user cache). -/
def process_github_user (store : List Person) (identities : List IdentityMapping)
    (processed_users_cache : Option (List (String × String))) (u : GithubUser)
    (now_iso : String) :
    Option String × List Person × List IdentityMapping ×
      Option (List (String × String)) :=
  let github_login := u.login
  match processed_users_cache with
  | some cache0 =>
      match alookup cache0 github_login with
      | some cached => (some cached, store, identities, some cache0)
      | none => processBody store identities (some cache0) u now_iso github_login
  | none => processBody store identities none u now_iso github_login
where
  /-- Body of process_github_user past the session-cache check. -/
  processBody (store : List Person) (identities : List IdentityMapping)
      (cache? : Option (List (String × String))) (u : GithubUser)
      (now_iso github_login : String) :
      Option String × List Person × List IdentityMapping ×
        Option (List (String × String)) :=
    let github_name := if pyTruthy u.name then pyGet u.name else github_login
    let github_email := githubUserEmailNormalized u
    let github_url :=
      if pyTruthy u.html_url then pyGet u.html_url
      else "https://github.com/" ++ github_login
    let r := get_or_create_person store
      (if github_email == "" then none else some github_email)
      github_name (some "github") (some github_login) (some github_url)
    match r.1.1 with
    | none => (none, r.2, identities, cache?)
    | some person_id =>
        let identity_id := "identity_github_" ++ github_login
        let identity : IdentityMapping :=
          ⟨identity_id, "GitHub", github_login, github_email, some now_iso⟩
        let identities := merge_identity_mapping identities identity
        let cache? := cache?.map (fun cch => aset cch github_login person_id)
        (some person_id, r.2, identities, cache?)
  /-- Modelled from the spec: db.models.merge_identity_mapping is not under
  src/; section 6 specifies an idempotent upsert keyed by the node id. -/
  merge_identity_mapping (identities : List IdentityMapping)
      (i : IdentityMapping) : List IdentityMapping :=
    if identities.any (fun j => j.id == i.id) then
      identities.map (fun j => if j.id == i.id then i else j)
    else
      identities ++ [i]

/-- Sequence of resolve calls (the common signature of IdentityResolver and
PersonCache resolution). -/
structure ResolveCall where
  email : Option String
  name : String
  provider : Option String
  external_id : Option String
  url : Option String
deriving Repr, DecidableEq

/-- Run a sequence of resolve calls through IdentityResolver's
get_or_create_person, threading the store; returns the person ids call-for-call
and the final store. -/
def runResolver : List Person → List ResolveCall → List (Option String) × List Person
  | store, [] => ([], store)
  | store, cl :: rest =>
      let r := get_or_create_person store cl.email cl.name cl.provider cl.external_id cl.url
      let t := runResolver r.2 rest
      (r.1.1 :: t.1, t.2)

/-- Run a sequence of resolve calls through PersonCache.get_or_create_person,
threading cache and store; returns the person ids call-for-call together with
the final cache and store. -/
def runPersonCache : PersonCache → List Person → List ResolveCall →
    List (Option String) × PersonCache × List Person
  | c, store, [] => ([], c, store)
  | c, store, cl :: rest =>
      let r := c.get_or_create_person store cl.email cl.name cl.provider cl.external_id cl.url
      let t := runPersonCache r.2.1 r.2.2 rest
      (r.1.1 :: t.1, t.2)

/-- C1 counterexample: resolve (identity_resolver.get_or_create_person) does
not lower-case the email. On an empty store, resolving "Alice@Example.com" and
then "alice@example.com" — the same address up to letter-casing — returns two
different person ids, and the second call reports is_new = true. -/
theorem C1_counterexample_resolver_case_sensitive :
    (get_or_create_person [] (some "Alice@Example.com") "Alice" none none none).1
        = (some "person_Alice@Example.com", true)
    ∧ (let r1 := get_or_create_person [] (some "Alice@Example.com") "Alice" none none none
       (get_or_create_person r1.2 (some "alice@example.com") "Alice" none none none).1)
        = (some "person_alice@example.com", true) := by
  constructor <;> decide

/-- C1 (amended): the lower-casing happens at the call site — process_github_user
lower-cases the email (lines 88-91, modelled by githubUserEmailNormalized)
before calling resolve. For any two GitHub users whose emails are valid
(non-empty after normalization) and differ only in letter-casing (equal after
the source-side lower-casing), the two resolve calls made on the normalized
emails return the same person id and the second reports is_new = false. -/
theorem C1_amended_email_case_normalized_at_source
    (u1 u2 : GithubUser)
    (hcase : githubUserEmailNormalized u1 = githubUserEmailNormalized u2)
    (hvalid : githubUserEmailNormalized u1 ≠ "")
    (n1 n2 : String) (pr1 pr2 ex1 ex2 url1 url2 : Option String) :
    (let r1 := get_or_create_person []
        (some (githubUserEmailNormalized u1)) n1 pr1 ex1 url1
     let r2 := get_or_create_person r1.2
        (some (githubUserEmailNormalized u2)) n2 pr2 ex2 url2
     r1.1.1.isSome ∧ r2.1.1 = r1.1.1 ∧ r2.1.2 = false) := by
  set e := githubUserEmailNormalized u1 with hE
  rw [← hcase]
  have hne : (e == "") = false := by
    simp only [beq_eq_false_iff_ne, ne_eq]
    exact hvalid
  simp [get_or_create_person, pyTruthy, hne, lookupPersonIdByEmail, merge_person]

/-- Witness for C1 (amended) at concrete users whose emails differ only in case. -/
theorem C1_amended_witness :
    (let r1 := get_or_create_person []
        (some (githubUserEmailNormalized ⟨"alice", none, some "Alice@Example.com", none⟩))
        "Alice" none none none
     let r2 := get_or_create_person r1.2
        (some (githubUserEmailNormalized ⟨"alice2", none, some "ALICE@example.COM", none⟩))
        "Alice" none none none
     r1.1.1.isSome ∧ r2.1.1 = r1.1.1 ∧ r2.1.2 = false) :=
  C1_amended_email_case_normalized_at_source
    ⟨"alice", none, some "Alice@Example.com", none⟩
    ⟨"alice2", none, some "ALICE@example.COM", none⟩
    (by decide) (by decide) "Alice" "Alice" none none none none none none

/-- C3: when resolve is given neither an email (absent or empty string) nor both
a provider and an external id, both IdentityResolver.get_or_create_person and
PersonCache.get_or_create_person fail with the MissingIdentifier outcome: a null
person id, is_new = false, no Person created, the store unchanged (the cache
only counts a miss). -/
theorem C3_missing_identifier_null_and_no_write
    (store : List Person) (c : PersonCache) (email : Option String) (name : String)
    (provider external_id url : Option String)
    (hEmail : pyTruthy email = false)
    (hProv : (pyTruthy provider && pyTruthy external_id) = false) :
    get_or_create_person store email name provider external_id url = ((none, false), store)
    ∧ c.get_or_create_person store email name provider external_id url
        = ((none, false), { c with cache_misses := c.cache_misses + 1 }, store) := by
  constructor
  · simp [get_or_create_person, hEmail, hProv]
  · simp [PersonCache.get_or_create_person, hEmail, hProv]

/-- Witness for C3: resolve(None, name, None, None, None) on an arbitrary store
fails with the null id and leaves the store unchanged. -/
theorem C3_missing_identifier_witness :
    get_or_create_person [] none "Bot" none none none = ((none, false), [])
    ∧ PersonCache.empty.get_or_create_person [] none "Bot" none none none
        = ((none, false),
           { PersonCache.empty with cache_misses := PersonCache.empty.cache_misses + 1 }, []) :=
  C3_missing_identifier_null_and_no_write [] PersonCache.empty none "Bot" none none none
    rfl rfl

/-- C2 counterexample: PersonCache and IdentityResolver are not call-for-call
equivalent. From an empty store, resolving (email "a@x.com", provider "github",
external id "alice") and then (no email, provider "github", external id
"alice"): the resolver mints "person_github_alice" for the second call while
the cache serves the provider-table entry "person_a@x.com" learned during the
first, email-based, resolution. -/
theorem C2_counterexample_provider_table_diverges :
    (runResolver [] [⟨some "a@x.com", "Alice", some "github", some "alice", none⟩,
                     ⟨none, "Alice", some "github", some "alice", none⟩]).1
      = [some "person_a@x.com", some "person_github_alice"]
    ∧ (runPersonCache PersonCache.empty []
        [⟨some "a@x.com", "Alice", some "github", some "alice", none⟩,
         ⟨none, "Alice", some "github", some "alice", none⟩]).1
      = [some "person_a@x.com", some "person_a@x.com"] := by
  constructor <;> decide

/-- Consistency of a PersonCache with the graph store, for runs in which every
resolution so far carried an email: every email-table entry agrees with what the
store email lookup returns, and every stored Person was keyed by its email. -/
def cacheConsistent (c : PersonCache) (store : List Person) : Prop :=
  (∀ e id, alookup c.email_cache e = some id → lookupPersonIdByEmail store e = some id)
  ∧ (∀ p ∈ store, ∃ e, p.email = some e ∧ p.id = "person_" ++ e)

/-- The email-based canonical person id derivation is injective. -/
theorem personIdOfEmail_injective {a b : String}
    (h : "person_" ++ a = "person_" ++ b) : a = b := by
  have h2 : ("person_" ++ a).data = ("person_" ++ b).data := by rw [h]
  rw [String.data_append, String.data_append] at h2
  exact String.ext (List.append_cancel_left h2)

/-- Email lookup over a store extended with one node on the right. -/
theorem lookupPersonIdByEmail_append (store : List Person) (p : Person) (e : String) :
    lookupPersonIdByEmail (store ++ [p]) e
      = (lookupPersonIdByEmail store e).or (lookupPersonIdByEmail [p] e) := by
  simp only [lookupPersonIdByEmail, List.find?_append]
  cases store.find? (fun q => q.email == some e) <;> simp

/-- When no stored node carries the new node's id, merge_person appends. -/
theorem merge_person_append (store : List Person) (p : Person)
    (h : ∀ q ∈ store, q.id ≠ p.id) : merge_person store p = store ++ [p] := by
  have hany : store.any (fun q => q.id == p.id) = false := by
    rw [List.any_eq_false]
    intro q hq
    simpa using h q hq
  simp [merge_person, hany]

/-- Association lookup after appending one binding on the right. -/
theorem alookup_append_single {α β : Type} [BEq α] (l : List (α × β)) (k k' : α) (v : β) :
    alookup (l ++ [(k, v)]) k'
      = (alookup l k').or (if k == k' then some v else none) := by
  simp only [alookup, List.find?_append]
  cases l.find? (fun kv => kv.1 == k') with
  | some x => simp
  | none =>
      by_cases hk : (k == k') = true <;> simp [List.find?, hk]

/-- aset on a key that is absent appends the binding. -/
theorem aset_of_not_mem {α β : Type} [BEq α] (l : List (α × β)) (k : α) (v : β)
    (h : alookup l k = none) : aset l k v = l ++ [(k, v)] := by
  have hfind : l.find? (fun kv => kv.1 == k) = none := by
    cases hf : l.find? (fun kv => kv.1 == k) with
    | none => rfl
    | some kv => simp [alookup, hf] at h
  simp [aset, hfind]

/-- Behavior of the resolver on a non-empty email that the store lookup finds. -/
theorem get_or_create_person_email_found (store : List Person) (e : String)
    (name : String) (provider external_id url : Option String) (fid : String)
    (hne : (e == "") = false) (hL : lookupPersonIdByEmail store e = some fid) :
    get_or_create_person store (some e) name provider external_id url
      = ((some fid, false), store) := by
  have he : pyTruthy (some e) = true := by simp [pyTruthy, hne]
  simp [get_or_create_person, he, hL]

/-- Behavior of the resolver on a non-empty email absent from the store:
creates the email-keyed Person. -/
theorem get_or_create_person_email_create (store : List Person) (e : String)
    (name : String) (provider external_id url : Option String)
    (hne : (e == "") = false) (hL : lookupPersonIdByEmail store e = none) :
    get_or_create_person store (some e) name provider external_id url
      = ((some ("person_" ++ e), true),
         merge_person store ⟨"person_" ++ e, name, some e, "", "", "", "", false, url⟩) := by
  have he : pyTruthy (some e) = true := by simp [pyTruthy, hne]
  simp [get_or_create_person, he, hL]

/-- Behavior of the cache resolver on an email-table hit. -/
theorem PersonCache.get_or_create_person_hit (c : PersonCache) (store : List Person)
    (e : String) (name : String) (provider external_id url : Option String) (pid : String)
    (hne : (e == "") = false) (hA : alookup c.email_cache e = some pid) :
    c.get_or_create_person store (some e) name provider external_id url
      = ((some pid, false), { c with cache_hits := c.cache_hits + 1 }, store) := by
  have he : pyTruthy (some e) = true := by simp [pyTruthy, hne]
  simp [PersonCache.get_or_create_person, he, hA]

/-- Behavior of the cache resolver on an email-table miss whose store lookup
finds an existing Person: adopt the found id and populate both tables. -/
theorem PersonCache.get_or_create_person_found (c : PersonCache) (store : List Person)
    (e : String) (name : String) (provider external_id url : Option String) (fid : String)
    (hne : (e == "") = false) (hA : alookup c.email_cache e = none)
    (hL : lookupPersonIdByEmail store e = some fid) :
    c.get_or_create_person store (some e) name provider external_id url
      = ((some fid, false),
         { c with cache_misses := c.cache_misses + 1, db_queries := c.db_queries + 1,
                  email_cache := aset c.email_cache e fid,
                  provider_cache := (if pyTruthy provider && pyTruthy external_id then aset c.provider_cache (pyGet provider, pyGet external_id) fid else c.provider_cache) },
         store) := by
  have he : pyTruthy (some e) = true := by simp [pyTruthy, hne]
  simp only [PersonCache.get_or_create_person, he, hA, hL, if_true]
  split <;> rfl

/-- Behavior of the cache resolver on an email-table miss with no stored
Person: create the email-keyed Person and populate both tables. -/
theorem PersonCache.get_or_create_person_create (c : PersonCache) (store : List Person)
    (e : String) (name : String) (provider external_id url : Option String)
    (hne : (e == "") = false) (hA : alookup c.email_cache e = none)
    (hL : lookupPersonIdByEmail store e = none) :
    c.get_or_create_person store (some e) name provider external_id url
      = ((some ("person_" ++ e), true),
         { c with cache_misses := c.cache_misses + 1, db_queries := c.db_queries + 1,
                  email_cache := aset c.email_cache e ("person_" ++ e),
                  provider_cache := (if pyTruthy provider && pyTruthy external_id then aset c.provider_cache (pyGet provider, pyGet external_id) ("person_" ++ e) else c.provider_cache) },
         merge_person store ⟨"person_" ++ e, name, some e, "", "", "", "", false, url⟩) := by
  have he : pyTruthy (some e) = true := by simp [pyTruthy, hne]
  simp only [PersonCache.get_or_create_person, he, hA, hL, if_true]
  split <;> rfl

/-- One resolve call with a truthy email: PersonCache.get_or_create_person and
IdentityResolver.get_or_create_person return the same (person_id, is_new), leave
equal stores, and preserve cache-store consistency. -/
theorem resolveStep_equiv (c : PersonCache) (store : List Person) (cl : ResolveCall)
    (hc : pyTruthy cl.email = true) (hinv : cacheConsistent c store) :
    (c.get_or_create_person store cl.email cl.name cl.provider cl.external_id cl.url).1
      = (get_or_create_person store cl.email cl.name cl.provider cl.external_id cl.url).1
    ∧ (c.get_or_create_person store cl.email cl.name cl.provider cl.external_id cl.url).2.2
      = (get_or_create_person store cl.email cl.name cl.provider cl.external_id cl.url).2
    ∧ cacheConsistent
        (c.get_or_create_person store cl.email cl.name cl.provider cl.external_id cl.url).2.1
        (c.get_or_create_person store cl.email cl.name cl.provider cl.external_id cl.url).2.2 := by
  obtain ⟨e, heq, hne⟩ : ∃ e, cl.email = some e ∧ (e == "") = false := by
    cases h : cl.email with
    | none => rw [h] at hc; simp [pyTruthy] at hc
    | some s =>
        refine ⟨s, rfl, ?_⟩
        rw [h] at hc
        simpa [pyTruthy] using hc
  rw [heq]
  cases halookup : alookup c.email_cache e with
  | some pid =>
      have hL : lookupPersonIdByEmail store e = some pid := hinv.1 e pid halookup
      rw [PersonCache.get_or_create_person_hit c store e cl.name cl.provider cl.external_id
            cl.url pid hne halookup,
          get_or_create_person_email_found store e cl.name cl.provider cl.external_id
            cl.url pid hne hL]
      exact ⟨rfl, rfl, hinv⟩
  | none =>
      cases hL : lookupPersonIdByEmail store e with
      | some fid =>
          rw [PersonCache.get_or_create_person_found c store e cl.name cl.provider
                cl.external_id cl.url fid hne halookup hL,
              get_or_create_person_email_found store e cl.name cl.provider cl.external_id
                cl.url fid hne hL]
          refine ⟨rfl, rfl, ?_, hinv.2⟩
          intro e' id' h'
          rw [show (aset c.email_cache e fid) = c.email_cache ++ [(e, fid)] from
                aset_of_not_mem c.email_cache e fid halookup,
              alookup_append_single] at h'
          cases hold : alookup c.email_cache e' with
          | some idOld =>
              rw [hold] at h'
              simp only [Option.or_some, Option.some.injEq] at h'
              exact h' ▸ hinv.1 e' idOld hold
          | none =>
              rw [hold] at h'
              simp only [Option.none_or] at h'
              by_cases hek : (e == e') = true
              · rw [if_pos hek] at h'
                have hee : e = e' := by simpa using hek
                cases h'
                rw [← hee]
                exact hL
              · rw [if_neg (by simpa using hek)] at h'
                exact absurd h' (by simp)
      | none =>
          have hnodup : ∀ q ∈ store,
              q.id ≠ (Person.mk ("person_" ++ e) cl.name (some e) "" "" "" "" false cl.url).id := by
            intro q hq hid
            obtain ⟨e', he', hid'⟩ := hinv.2 q hq
            have hee : e' = e := personIdOfEmail_injective (by rw [← hid']; exact hid)
            have hqe : q.email = some e := by rw [he', hee]
            have hfind := List.find?_eq_none.mp (by
              have : (store.find? (fun p => p.email == some e)) = none := by
                cases hf : store.find? (fun p => p.email == some e) with
                | none => rfl
                | some q' => simp [lookupPersonIdByEmail, hf] at hL
              exact this) q hq
            simp [hqe] at hfind
          have hmerge := merge_person_append store
            (Person.mk ("person_" ++ e) cl.name (some e) "" "" "" "" false cl.url) hnodup
          rw [PersonCache.get_or_create_person_create c store e cl.name cl.provider
                cl.external_id cl.url hne halookup hL,
              get_or_create_person_email_create store e cl.name cl.provider cl.external_id
                cl.url hne hL]
          refine ⟨rfl, rfl, ?_, ?_⟩
          · intro e' id' h'
            rw [show (aset c.email_cache e ("person_" ++ e))
                  = c.email_cache ++ [(e, "person_" ++ e)] from
                  aset_of_not_mem c.email_cache e ("person_" ++ e) halookup,
                alookup_append_single] at h'
            rw [hmerge, lookupPersonIdByEmail_append]
            cases hold : alookup c.email_cache e' with
            | some idOld =>
                rw [hold] at h'
                simp only [Option.or_some, Option.some.injEq] at h'
                rw [hinv.1 e' idOld hold]
                simp [h']
            | none =>
                rw [hold] at h'
                simp only [Option.none_or] at h'
                by_cases hek : (e == e') = true
                · rw [if_pos hek] at h'
                  have hee : e = e' := by simpa using hek
                  cases h'
                  have : lookupPersonIdByEmail store e' = none := by rw [← hee]; exact hL
                  rw [this]
                  simp [lookupPersonIdByEmail, List.find?, ← hee]
                · rw [if_neg (by simpa using hek)] at h'
                  exact absurd h' (by simp)
          · rw [hmerge]
            intro p hp
            rcases List.mem_append.mp hp with hp | hp
            · exact hinv.2 p hp
            · rw [List.mem_singleton.mp hp]
              exact ⟨e, rfl, rfl⟩

/-- Sequences of resolve calls that all carry an email: the cache run and the
resolver run agree call-for-call, keep equal stores, and stay consistent. -/
theorem runs_equiv (calls : List ResolveCall) :
    ∀ (c : PersonCache) (store : List Person),
      (∀ cl ∈ calls, pyTruthy cl.email = true) → cacheConsistent c store →
      (runPersonCache c store calls).1 = (runResolver store calls).1
      ∧ (runPersonCache c store calls).2.2 = (runResolver store calls).2
      ∧ cacheConsistent (runPersonCache c store calls).2.1
          (runPersonCache c store calls).2.2 := by
  induction calls with
  | nil => exact fun c store _ hinv => ⟨rfl, rfl, hinv⟩
  | cons cl rest ih =>
      intro c store hall hinv
      have hc : pyTruthy cl.email = true := hall cl (by simp)
      obtain ⟨h1, h2, h3⟩ := resolveStep_equiv c store cl hc hinv
      obtain ⟨ih1, ih2, ih3⟩ :=
        ih (c.get_or_create_person store cl.email cl.name cl.provider cl.external_id cl.url).2.1
           (c.get_or_create_person store cl.email cl.name cl.provider cl.external_id cl.url).2.2
           (fun cl' h' => hall cl' (by simp [h'])) h3
      simp only [runPersonCache, runResolver]
      refine ⟨?_, ?_, ?_⟩
      · rw [← h2, h1, ih1]
      · rw [← h2, ih2]
      · exact ih3

/-- C2 (amended): starting from an empty store, for every sequence of resolve
calls in which every call supplies a (truthy) email, the person ids returned by
PersonCache.get_or_create_person equal, call-for-call, the ids returned by
IdentityResolver's get_or_create_person over the identical sequence. (The
unrestricted claim fails — see the counterexample — because PersonCache also
serves provider-table entries learned during email-based resolutions.) -/
theorem C2_amended_equal_on_email_carrying_sequences (calls : List ResolveCall)
    (hall : ∀ cl ∈ calls, pyTruthy cl.email = true) :
    (runPersonCache PersonCache.empty [] calls).1 = (runResolver [] calls).1 :=
  (runs_equiv calls PersonCache.empty []
    hall
    ⟨fun e id h => by simp [alookup, PersonCache.empty] at h,
     fun p hp => by simp at hp⟩).1

/-- Witness for C2 (amended) on a concrete two-call email-carrying sequence. -/
theorem C2_amended_witness :
    (runPersonCache PersonCache.empty []
      [⟨some "a@x.com", "Alice", some "github", some "alice", none⟩,
       ⟨some "b@y.com", "Bob", none, none, none⟩]).1
    = (runResolver []
      [⟨some "a@x.com", "Alice", some "github", some "alice", none⟩,
       ⟨some "b@y.com", "Bob", none, none, none⟩]).1 :=
  C2_amended_equal_on_email_carrying_sequences
    [⟨some "a@x.com", "Alice", some "github", some "alice", none⟩,
     ⟨some "b@y.com", "Bob", none, none, none⟩]
    (by decide)

/-- C9 counterexample: PersonCache's flushed-person tracking suppresses by
person id, not only by identity-link id. After queueing and flushing one
identity link for person "person_p", a queue_identity_mapping call with a
different identity id for the same person is skipped (the cache is unchanged)
and the next flush writes nothing. -/
theorem C9_counterexample_flushed_person_blocks_new_identity :
    (let c1 := PersonCache.empty.queue_identity_mapping "person_p" "identity_github_a"
        "GitHub" "a" none "t1"
     let f1 := c1.flush_identity_mappings
     let c3 := f1.1.queue_identity_mapping "person_p" "identity_jira_b" "Jira" "b" none "t2"
     (f1.2.length = 1 ∧ c3 = f1.1 ∧ c3.flush_identity_mappings.2 = [])) := by
  refine ⟨?_, ?_, ?_⟩ <;> decide

/-- C9 (amended): flushed-person tracking suppresses per person: once a person
id has been marked flushed, every later queue_identity_mapping call for that
person — with any identity id, including a new one — is skipped and leaves the
cache unchanged; and a flush marks the person id of every pending record as
flushed. -/
theorem C9_amended_flush_suppresses_by_person (c : PersonCache)
    (person_id identity_id provider username last_updated_at : String)
    (email : Option String)
    (hflushed : person_id ∈ c.flushed_persons) :
    c.queue_identity_mapping person_id identity_id provider username email last_updated_at = c
    ∧ ∀ idid rec, (idid, rec) ∈ c.pending_identities →
        rec.2.to_id ∈ c.flush_identity_mappings.1.flushed_persons := by
  constructor
  · unfold PersonCache.queue_identity_mapping
    by_cases hpend : (alookup c.pending_identities identity_id).isSome = true
    · simp [hpend]
    · simp only [Bool.not_eq_true] at hpend
      simp only [hpend, Bool.false_eq_true, if_false]
      rw [if_pos (by exact List.elem_iff.mpr hflushed)]
  · intro idid rec hmem
    unfold PersonCache.flush_identity_mappings
    have hne : c.pending_identities.isEmpty = false := by
      cases hp : c.pending_identities with
      | nil => rw [hp] at hmem; simp at hmem
      | cons a t => simp [hp]
    simp only [hne, Bool.false_eq_true, if_false]
    refine List.mem_append.mpr (Or.inr ?_)
    exact List.mem_map.mpr ⟨(idid, rec), hmem, rfl⟩

/-- Witness for C9 (amended) at a cache that has already flushed "person_p". -/
theorem C9_amended_witness :
    (let c := ((PersonCache.empty.queue_identity_mapping "person_p" "identity_github_a"
        "GitHub" "a" none "t1").flush_identity_mappings).1
     c.queue_identity_mapping "person_p" "identity_jira_b" "Jira" "b" none "t2" = c
     ∧ ∀ idid rec, (idid, rec) ∈ c.pending_identities →
         rec.2.to_id ∈ c.flush_identity_mappings.1.flushed_persons) :=
  C9_amended_flush_suppresses_by_person
    ((PersonCache.empty.queue_identity_mapping "person_p" "identity_github_a"
        "GitHub" "a" none "t1").flush_identity_mappings).1
    "person_p" "identity_jira_b" "Jira" "b" "t2" none (by decide)

/-- Does the needle occur at the start of the haystack (character lists). -/
def leadsWith : List Char → List Char → Bool
  | [], _ => true
  | _ :: _, [] => false
  | a :: as, b :: bs => a == b && leadsWith as bs

/-- Python substring containment, needle in haystack, over character lists. -/
def strContainsSub : List Char → List Char → Bool
  | hay, needle =>
    if leadsWith needle hay then true
    else
      match hay with
      | [] => false
      | _ :: t => strContainsSub t needle

/-- src/modules/github/retry_with_backoff.py lines 26-28: lower-case the error
message and classify it as rate limiting by substring inspection. -/
def is_rate_limit_error (msg : String) : Bool :=
  let error_str := pyLower msg
  strContainsSub error_str.data "rate limit".data
    || strContainsSub error_str.data "api rate limit exceeded".data

/-- Result of retry_with_backoff: the function's value or the raised error
message, together with the sleep durations performed, in order. -/
inductive RetryOutcome (α : Type) where
  | success (value : α) (sleeps : List Nat)
  | failure (message : String) (sleeps : List Nat)
deriving Repr, DecidableEq

/-- The attempt loop of retry_with_backoff (lines 20-39): fuel counts the
remaining loop iterations of `for attempt in range(max_retries)`; the function
under retry is modelled as attempt-indexed (Except carries a raised message).
Sleeps are accumulated in reverse and reported in order. -/
def retryLoop {α : Type} (func : Nat → Except String α) (max_retries : Nat) :
    Nat → Nat → Nat → List Nat → RetryOutcome α
  | 0, _, _, sleeps =>
      .failure ("Failed after " ++ toString max_retries ++ " attempts") sleeps.reverse
  | fuel + 1, attempt, delay, sleeps =>
      match func attempt with
      | .ok v => .success v sleeps.reverse
      | .error e =>
          if is_rate_limit_error e then
            if attempt < max_retries - 1 then
              retryLoop func max_retries fuel (attempt + 1) (delay * 2) (delay :: sleeps)
            else
              .failure ("Max retries exceeded due to rate limiting: " ++ e) sleeps.reverse
          else
            .failure e sleeps.reverse

/-- src/modules/github/retry_with_backoff.py retry_with_backoff: run the loop
from attempt 0 with the initial delay. -/
def retry_with_backoff {α : Type} (func : Nat → Except String α)
    (max_retries : Nat) (initial_delay : Nat) : RetryOutcome α :=
  retryLoop func max_retries max_retries 0 initial_delay []

/-- C5: with max_retries = 5 and initial delay 1 second, (a) a function failing
with rate-limit-classified errors on attempts 0-3 and succeeding on attempt 4
returns the success value after exactly the four sleeps 1, 2, 4, 8 (strictly
doubling); (b) a non-rate-limit error is re-raised immediately with zero
sleeps; (c) five straight rate-limit failures exhaust the budget and fail with
the retries-exhausted error wrapping the last cause. -/
theorem C5_retry_with_backoff_contract :
    (∀ (α : Type) (f : Nat → Except String α) (v : α),
       (∀ i, i < 4 → ∃ m, f i = .error m ∧ is_rate_limit_error m = true) →
       f 4 = .ok v →
       retry_with_backoff f 5 1 = .success v [1, 2, 4, 8])
    ∧ (∀ (α : Type) (f : Nat → Except String α) (m : String),
       f 0 = .error m → is_rate_limit_error m = false →
       retry_with_backoff f 5 1 = .failure m [])
    ∧ (∀ (α : Type) (f : Nat → Except String α) (ms : Nat → String),
       (∀ i, i < 5 → f i = .error (ms i) ∧ is_rate_limit_error (ms i) = true) →
       retry_with_backoff f 5 1
         = .failure ("Max retries exceeded due to rate limiting: " ++ ms 4) [1, 2, 4, 8]) := by
  refine ⟨?_, ?_, ?_⟩
  · intro α f v hf h4
    obtain ⟨m0, e0, r0⟩ := hf 0 (by norm_num)
    obtain ⟨m1, e1, r1⟩ := hf 1 (by norm_num)
    obtain ⟨m2, e2, r2⟩ := hf 2 (by norm_num)
    obtain ⟨m3, e3, r3⟩ := hf 3 (by norm_num)
    simp [retry_with_backoff, retryLoop, e0, r0, e1, r1, e2, r2, e3, r3, h4]
  · intro α f m h0 hrl
    simp [retry_with_backoff, retryLoop, h0, hrl]
  · intro α f ms hf
    obtain ⟨e0, r0⟩ := hf 0 (by norm_num)
    obtain ⟨e1, r1⟩ := hf 1 (by norm_num)
    obtain ⟨e2, r2⟩ := hf 2 (by norm_num)
    obtain ⟨e3, r3⟩ := hf 3 (by norm_num)
    obtain ⟨e4, r4⟩ := hf 4 (by norm_num)
    simp [retry_with_backoff, retryLoop, e0, r0, e1, r1, e2, r2, e3, r3, e4, r4]

/-- Witness for C5 at a concrete rate-limited function that succeeds on the
fifth invocation. -/
theorem C5_retry_witness :
    retry_with_backoff
      (fun i => if i < 4 then (Except.error "API rate limit exceeded" : Except String Nat)
                else .ok 42) 5 1
      = .success 42 [1, 2, 4, 8] :=
  C5_retry_with_backoff_contract.1 Nat
    (fun i => if i < 4 then .error "API rate limit exceeded" else .ok 42) 42
    (fun i hi => ⟨"API rate limit exceeded", by simp [hi], by decide⟩)
    rfl

/-- A pull request as fetched from the remote (fields read by
process_pull_requests.py: number, state, updated_at as a comparable instant). -/
structure PullRequest where
  number : Nat
  state : String
  updated_at : Int
deriving Repr, DecidableEq

/-- A pull-request row as stored in the graph (fields read by
get_fully_synced_pr_numbers.py: number and state). -/
structure StoredPR where
  number : Nat
  state : String
deriving Repr, DecidableEq

/-- src/app/modules/github/get_fully_synced_pr_numbers.py (lines 4-29): the
numbers of stored pull requests whose state is in ['merged', 'closed']. -/
def get_fully_synced_pr_numbers (storePRs : List StoredPR) : List Nat :=
  (storePRs.filter (fun pr => pr.state == "merged" || pr.state == "closed")).map
    StoredPR.number

/-- src/modules/github/process_pull_requests.py line 33: PRs within the
update-time window (updated_at at or after since_date). -/
def recentPRs (all_prs : List PullRequest) (since_date : Int) : List PullRequest :=
  all_prs.filter (fun pr => since_date ≤ pr.updated_at)

/-- src/modules/github/process_pull_requests.py line 35: keep a PR when its
number is not in the terminal set or its current remote state is "open". -/
def prs_to_process (recent_prs : List PullRequest) (existing_pr_numbers : List Nat) :
    List PullRequest :=
  recent_prs.filter
    (fun pr => !(existing_pr_numbers.contains pr.number) || pr.state == "open")

/-- C6: a fetched PR inside the update-time window is skipped if and only if
its number is among the stored terminal (merged/closed) PR numbers and its
current remote state is not "open"; hence a reopened PR (terminal-recorded but
now "open") is reprocessed and every open PR in the window is reprocessed. -/
theorem C6_pr_skip_iff_terminal_and_not_open
    (all_prs : List PullRequest) (since_date : Int) (storePRs : List StoredPR)
    (pr : PullRequest) (hmem : pr ∈ recentPRs all_prs since_date) :
    (pr ∉ prs_to_process (recentPRs all_prs since_date)
        (get_fully_synced_pr_numbers storePRs)
      ↔ pr.number ∈ get_fully_synced_pr_numbers storePRs ∧ pr.state ≠ "open") := by
  constructor
  · intro hskip
    by_cases hterm : pr.number ∈ get_fully_synced_pr_numbers storePRs
    · refine ⟨hterm, ?_⟩
      intro hopen
      exact hskip (List.mem_filter.mpr ⟨hmem, by simp [hopen]⟩)
    · exact absurd (List.mem_filter.mpr ⟨hmem, by simp [hterm]⟩) hskip
  · rintro ⟨hterm, hopen⟩ hproc
    have := (List.mem_filter.mp hproc).2
    simp only [Bool.or_eq_true, Bool.not_eq_true', beq_iff_eq] at this
    rcases this with h | h
    · rw [← List.elem_iff] at hterm
      simp only [List.contains] at h
      rw [h] at hterm
      exact absurd hterm (by simp)
    · exact hopen h

/-- Witness for C6 at a concrete reopened PR: number 5 is stored as closed but
the remote now reports it open, so it is not skipped. -/
theorem C6_pr_skip_witness :
    ((⟨5, "open", 10⟩ : PullRequest) ∉ prs_to_process
        (recentPRs [⟨5, "open", 10⟩] 0) (get_fully_synced_pr_numbers [⟨5, "closed"⟩])
      ↔ (5 : Nat) ∈ get_fully_synced_pr_numbers [⟨5, "closed"⟩]
          ∧ ("open" : String) ≠ "open") :=
  C6_pr_skip_iff_terminal_and_not_open [⟨5, "open", 10⟩] 0 [⟨5, "closed"⟩]
    ⟨5, "open", 10⟩ (by decide)

/-- Python str() rendering of a possibly-None string, as used in f-strings. -/
def pyStr : Option String → String
  | none => "None"
  | some s => s

/-- Python email.split('@')[0]: the characters before the first '@'. -/
def takeUntilAt (s : String) : String := ⟨s.data.takeWhile (fun ch => !(ch == '@'))⟩

/-- Python name.lower().replace(' ', '_') from new_commit_handler.py line 87. -/
def loginFromName (s : String) : String :=
  ⟨(pyLower s).data.map (fun ch => if ch == ' ' then '_' else ch)⟩

/-- Shapes of the commit-author object consumed by get_or_create_commit_author
(new_commit_handler.py lines 72-94): a full user object (has login), a
name/email-only git author (has name, no login), or an unrecognized shape.
Option fields model attributes whose value may be None. -/
inductive CommitAuthor where
  | user (login : Option String) (name : Option String) (email : Option String)
  | gitAuthor (name : Option String) (email : Option String)
  | unknownShape
deriving Repr, DecidableEq

/-- A write call issued to the graph store, for write traces. -/
inductive WriteOp where
  | mergePersonOp (id : String)
  | mergeIdentityOp (id : String)
  | mergeCommitOp (id : String)
  | mergeRelationshipOp (rtype : String) (from_id : String) (to_id : String)
  | mergeFileOp (id : String)
  | mergeIssueStubOp (id : String)
  | markFullySyncedOp (id : String)
deriving Repr, DecidableEq

/-- Field extraction of get_or_create_commit_author (lines 72-94): returns
(github_login, github_name, github_email) with the Python None possibilities
preserved for login and name. -/
def commitAuthorFields : CommitAuthor → Option String × Option String × String
  | .user login name email =>
      (login, if pyTruthy name then name else login,
       if pyTruthy email then pyGet email else "")
  | .gitAuthor name email =>
      let github_name := if pyTruthy name then pyGet name else "Unknown"
      let github_email := if pyTruthy email then pyGet email else ""
      let github_login :=
        if !(github_email == "") then takeUntilAt github_email
        else loginFromName github_name
      (some github_login, some github_name, github_email)
  | .unknownShape => (some "unknown", some "Unknown", "")

/-- src/modules/github/new_commit_handler.py get_or_create_commit_author
(lines 56-148): extract author fields by shape, resolve through
get_or_create_person (provider "github", external id = the derived login),
merge the IdentityMapping, and on any raised store-write error return the
fallback id "person_github_unknown". writesRaise models the store writes
raising (db.models is not under src/; per spec section 6 they are upserts, here
additionally allowed to fail to model the except path). Returns
(person_id?, persons store, successful write calls). -/
def get_or_create_commit_author (store : List Person) (writesRaise : Bool)
    (commit_author : CommitAuthor) : Option String × List Person × List WriteOp :=
  let ext := commitAuthorFields commit_author
  let github_login := ext.1
  let github_name := ext.2.1
  let github_email := ext.2.2
  let email := if !(github_email == "") then some github_email else none
  if writesRaise then
    (some "person_github_unknown", store, [])
  else
    let r := get_or_create_person store email (pyStr github_name)
      (some "github") github_login none
    let identity_id := "identity_github_" ++ pyStr github_login
    let authorWrites :=
      (match r.1 with
       | (some pid, true) => [WriteOp.mergePersonOp pid]
       | _ => []) ++ [WriteOp.mergeIdentityOp identity_id]
    (r.1.1, r.2, authorWrites)

/-- Author shapes for which the derived identifiers suffice for resolution:
user objects need a truthy login or email; the other shapes always derive one. -/
def authorHasUsableIdentifier : CommitAuthor → Bool
  | .user login _ email => pyTruthy login || pyTruthy email
  | .gitAuthor _ _ => true
  | .unknownShape => true

/-- The resolver returns a non-null id whenever the email is truthy or both
provider and external id are truthy. -/
theorem get_or_create_person_isSome (store : List Person) (email : Option String)
    (name : String) (provider external_id url : Option String)
    (h : pyTruthy email = true ∨ (pyTruthy provider && pyTruthy external_id) = true) :
    (get_or_create_person store email name provider external_id url).1.1.isSome = true := by
  by_cases hemail : pyTruthy email = true
  · obtain ⟨e, heq, hne⟩ : ∃ e, email = some e ∧ (e == "") = false := by
      cases hm : email with
      | none => rw [hm] at hemail; simp [pyTruthy] at hemail
      | some s =>
          refine ⟨s, rfl, ?_⟩
          rw [hm] at hemail
          simpa [pyTruthy] using hemail
    subst heq
    cases hL : lookupPersonIdByEmail store e with
    | some fid =>
        rw [get_or_create_person_email_found store e name provider external_id url fid hne hL]
        rfl
    | none =>
        rw [get_or_create_person_email_create store e name provider external_id url hne hL]
        rfl
  · have hpx : (pyTruthy provider && pyTruthy external_id) = true := by
      rcases h with h | hpx
      · exact absurd h hemail
      · exact hpx
    have hemail' : pyTruthy email = false := by
      simpa using hemail
    simp [get_or_create_person, hemail', hpx]

/-- C10 counterexample: a user-shaped author whose login is the empty string
and whose email is absent resolves to a null person id (no exception is
raised), so get_or_create_commit_author returns None, not a sentinel. -/
theorem C10_counterexample_loginless_user_returns_null :
    (get_or_create_commit_author [] false
        (CommitAuthor.user (some "") (some "ghost-bot") none)).1 = none := by
  decide

/-- A non-empty name keeps a non-empty derived login. -/
theorem loginFromName_ne_empty (s : String) (hs : s ≠ "") : loginFromName s ≠ "" := by
  intro hcontr
  apply hs
  have hd : (loginFromName s).data = [] := by rw [hcontr]
  simp only [loginFromName, pyLower, List.map_map, List.map_eq_nil_iff] at hd
  exact String.ext (by simp [hd])

/-- C10 (amended): get_or_create_commit_author returns the sentinel
"person_github_unknown" whenever a store write raises, and returns a non-null
person id for every author shape except a user-shaped author whose login and
email are both absent or empty — that shape resolves to None without raising. -/
theorem C10_amended_author_resolution_total_on_usable_shapes
    (store : List Person) (a : CommitAuthor) :
    (get_or_create_commit_author store true a).1 = some "person_github_unknown"
    ∧ (authorHasUsableIdentifier a = true →
        (get_or_create_commit_author store false a).1.isSome = true) := by
  constructor
  · rfl
  · intro hid
    cases a with
    | user login name email =>
        simp only [authorHasUsableIdentifier, Bool.or_eq_true] at hid
        by_cases he : pyTruthy email = true
        · obtain ⟨s, hs, hsne⟩ : ∃ s, email = some s ∧ (s == "") = false := by
            cases hm : email with
            | none => rw [hm] at he; simp [pyTruthy] at he
            | some s =>
                refine ⟨s, rfl, ?_⟩
                rw [hm] at he
                simpa [pyTruthy] using he
          subst hs
          simp only [get_or_create_commit_author, commitAuthorFields, he, if_true,
            pyGet, Option.getD_some, hsne, Bool.not_false, if_false]
          apply get_or_create_person_isSome
          left
          simp [pyTruthy, hsne]
        · have hlogin : pyTruthy login = true := by
            rcases hid with h | h
            · exact h
            · exact absurd h he
          have he' : pyTruthy email = false := by simpa using he
          simp only [get_or_create_commit_author, commitAuthorFields, he',
            Bool.false_eq_true, if_false, beq_self_eq_true, Bool.not_true]
          apply get_or_create_person_isSome
          right
          rw [Bool.and_eq_true]
          exact ⟨by decide, hlogin⟩
    | gitAuthor name email =>
        by_cases he : pyTruthy email = true
        · obtain ⟨s, hs, hsne⟩ : ∃ s, email = some s ∧ (s == "") = false := by
            cases hm : email with
            | none => rw [hm] at he; simp [pyTruthy] at he
            | some s =>
                refine ⟨s, rfl, ?_⟩
                rw [hm] at he
                simpa [pyTruthy] using he
          subst hs
          simp only [get_or_create_commit_author, commitAuthorFields, he, if_true,
            pyGet, Option.getD_some, hsne, Bool.not_false, if_false]
          apply get_or_create_person_isSome
          left
          simp [pyTruthy, hsne]
        · have he' : pyTruthy email = false := by simpa using he
          by_cases hn : pyTruthy name = true
          · obtain ⟨s, hs, hsne⟩ : ∃ s, name = some s ∧ (s == "") = false := by
              cases hm : name with
              | none => rw [hm] at hn; simp [pyTruthy] at hn
              | some s =>
                  refine ⟨s, rfl, ?_⟩
                  rw [hm] at hn
                  simpa [pyTruthy] using hn
            subst hs
            have hlg := loginFromName_ne_empty s (by simpa using hsne)
            simp only [get_or_create_commit_author, commitAuthorFields, he', hn,
              Bool.false_eq_true, if_false, if_true, pyGet, Option.getD_some,
              beq_self_eq_true, Bool.not_true]
            apply get_or_create_person_isSome
            right
            rw [Bool.and_eq_true]
            refine ⟨by decide, ?_⟩
            simpa [pyTruthy] using hlg
          · have hn' : pyTruthy name = false := by simpa using hn
            have hlg := loginFromName_ne_empty "Unknown" (by decide)
            simp only [get_or_create_commit_author, commitAuthorFields, he', hn',
              Bool.false_eq_true, if_false, beq_self_eq_true, Bool.not_true]
            apply get_or_create_person_isSome
            right
            rw [Bool.and_eq_true]
            refine ⟨by decide, ?_⟩
            simpa [pyTruthy] using hlg
    | unknownShape =>
        simp only [get_or_create_commit_author, commitAuthorFields]
        apply get_or_create_person_isSome
        right
        decide

/-- Witness for C10 (amended) at a concrete git-author input. -/
theorem C10_amended_witness :
    authorHasUsableIdentifier (CommitAuthor.gitAuthor (some "Jane Doe") (some "JANE@x.com"))
        = true
    ∧ (get_or_create_commit_author []
        false (CommitAuthor.gitAuthor (some "Jane Doe") (some "JANE@x.com"))).1.isSome = true
    ∧ (get_or_create_commit_author []
        true (CommitAuthor.gitAuthor (some "Jane Doe") (some "JANE@x.com"))).1
        = some "person_github_unknown" :=
  ⟨by decide,
   (C10_amended_author_resolution_total_on_usable_shapes []
      (CommitAuthor.gitAuthor (some "Jane Doe") (some "JANE@x.com"))).2 (by decide),
   (C10_amended_author_resolution_total_on_usable_shapes []
      (CommitAuthor.gitAuthor (some "Jane Doe") (some "JANE@x.com"))).1⟩

/-- Python s[:n]. -/
def pyTake (n : Nat) (s : String) : String := ⟨s.data.take n⟩

/-- A changed file of a commit (fields read by new_commit_handler lines 383-409). -/
structure CommitFile where
  filename : String
  additions : Int
  deletions : Int
deriving Repr, DecidableEq

/-- A fetched commit as consumed by new_commit_handler. -/
structure CommitInput where
  sha : String
  message : String
  timestamp : String
  author : CommitAuthor
  files : List CommitFile
deriving Repr, DecidableEq

/-- new_commit_handler.is_commit_fully_synced (lines 11-37): does a Commit node
with this id carry fully_synced = true; modelled over the set of such ids. -/
def is_commit_fully_synced (syncedIds : List String) (commit_id : String) : Bool :=
  syncedIds.contains commit_id

/-- new_file_handler.generate_file_hash (line 19) is an 8-character sha256
digest of the path; the digest is opaque to every claim and is abstracted as
the path itself (an injective stand-in). -/
def generate_file_hash (file_path : String) : String := file_path

/-- The File node id from new_file_handler.py line 43. -/
def file_node_id (repo_name file_path : String) : String :=
  "file_" ++ repo_name ++ "_" ++ generate_file_hash file_path

/-- How the file-processing block of new_commit_handler (lines 381-418) ends:
all files written, the files fetch raised, or processing raised after k files. -/
inductive FilesOutcome where
  | ok
  | fetchFailed
  | failedAt (k : Nat)
deriving Repr, DecidableEq

/-- The two writes of one file iteration (new_file_handler merge plus the
MODIFIES relationship, lines 384-409). -/
def fileWrites (repo_name commit_id : String) (f : CommitFile) : List WriteOp :=
  [WriteOp.mergeFileOp (file_node_id repo_name f.filename),
   WriteOp.mergeRelationshipOp "MODIFIES" commit_id (file_node_id repo_name f.filename)]

/-- src/modules/github/new_commit_handler.py new_commit_handler (lines
249-425): skip entirely when the commit id is already fully synced; otherwise
resolve the author, merge the Commit node, the PART_OF and AUTHORED_BY
relationships, the referenced issue stubs, then the files; the fully_synced
marker is written only when the file block completes. unique_issue_keys stands
for the keys produced by extract_issue_keys / extract_issue_keys_from_branch
(their regular-expression internals are not observed by any claim).
commitHeadWrites is the trace prefix before the file block: author resolution
writes, the Commit merge, PART_OF, AUTHORED_BY, and the issue-stub block. -/
def commitHeadWrites (persons : List Person) (commit : CommitInput)
    (commit_id branch_id : String) (unique_issue_keys : List String) : List WriteOp :=
  let a := get_or_create_commit_author persons false commit.author
  a.2.2
    ++ [WriteOp.mergeCommitOp commit_id,
        WriteOp.mergeRelationshipOp "PART_OF" commit_id branch_id,
        WriteOp.mergeRelationshipOp "AUTHORED_BY" commit_id (pyStr a.1)]
    ++ unique_issue_keys.flatMap (fun issue_key =>
         [WriteOp.mergeIssueStubOp ("issue_" ++ issue_key),
          WriteOp.mergeRelationshipOp "REFERENCES" commit_id ("issue_" ++ issue_key)])

/-- src/modules/github/new_commit_handler.py new_commit_handler (lines
249-425), write-path skeleton over the write-op trace. -/
def new_commit_handler (persons : List Person) (syncedIds : List String)
    (repo_name : String) (commit : CommitInput) (branch_id : String)
    (unique_issue_keys : List String) (filesOutcome : FilesOutcome) :
    Bool × List Person × List WriteOp :=
  let commit_sha := commit.sha
  let commit_id := "commit_" ++ repo_name ++ "_" ++ pyTake 8 commit_sha
  if is_commit_fully_synced syncedIds commit_id then
    (true, persons, [])
  else
    let a := get_or_create_commit_author persons false commit.author
    let headWrites := commitHeadWrites persons commit commit_id branch_id unique_issue_keys
    match filesOutcome with
    | .fetchFailed => (true, a.2.1, headWrites)
    | .failedAt k =>
        (true, a.2.1,
         headWrites ++ (commit.files.take k).flatMap (fileWrites repo_name commit_id))
    | .ok =>
        (true, a.2.1,
         headWrites ++ commit.files.flatMap (fileWrites repo_name commit_id)
           ++ [WriteOp.markFullySyncedOp commit_id])

/-- The handler loop of process_commits (lines 44-58), threading the Person
store and concatenating write traces. -/
def run_commit_handlers (syncedIds : List String) (repo_name branch_id : String)
    (issueKeys : String → List String) (outcome : String → FilesOutcome) :
    List Person → List CommitInput → List Person × List WriteOp
  | persons, [] => (persons, [])
  | persons, c :: rest =>
      let r := new_commit_handler persons syncedIds repo_name c branch_id
        (issueKeys c.sha) (outcome c.sha)
      let t := run_commit_handlers syncedIds repo_name branch_id issueKeys outcome
        r.2.1 rest
      (t.1, r.2.2 ++ t.2)

/-- src/modules/github/process_commits.py (lines 36-58): drop every fetched
commit whose sha is in the fully-synced set, then run the handler over the
remainder. -/
def process_commits (persons : List Person) (syncedIds existing_shas : List String)
    (repo_name branch_id : String) (issueKeys : String → List String)
    (outcome : String → FilesOutcome) (commits : List CommitInput) :
    List Person × List WriteOp :=
  let commits_to_process := commits.filter (fun c => !(existing_shas.contains c.sha))
  run_commit_handlers syncedIds repo_name branch_id issueKeys outcome persons
    commits_to_process

/-- Author resolution never writes the fully_synced marker. -/
theorem author_writes_no_marker (store : List Person) (rb : Bool) (a : CommitAuthor)
    (cid : String) :
    WriteOp.markFullySyncedOp cid ∉ (get_or_create_commit_author store rb a).2.2 := by
  cases rb with
  | true => simp [get_or_create_commit_author]
  | false =>
      simp only [get_or_create_commit_author, Bool.false_eq_true, if_false]
      intro hmem
      rcases List.mem_append.mp hmem with h | h
      · revert h
        split <;> simp
      · simp at h

/-- The pre-file write prefix never contains the fully_synced marker. -/
theorem marker_not_in_commitHeadWrites (persons : List Person) (commit : CommitInput)
    (commit_id branch_id : String) (keys : List String) (cid : String) :
    WriteOp.markFullySyncedOp cid
      ∉ commitHeadWrites persons commit commit_id branch_id keys := by
  unfold commitHeadWrites
  intro hmem
  rcases List.mem_append.mp hmem with h | h
  · rcases List.mem_append.mp h with h | h
    · exact author_writes_no_marker persons false commit.author cid h
    · simp at h
  · rcases List.mem_flatMap.mp h with ⟨k, _, hk⟩
    simp at hk

/-- File writes never contain the fully_synced marker. -/
theorem marker_not_in_fileWrites_flatMap (repo_name cid cid2 : String)
    (fs : List CommitFile) :
    WriteOp.markFullySyncedOp cid ∉ fs.flatMap (fileWrites repo_name cid2) := by
  intro h
  rcases List.mem_flatMap.mp h with ⟨f, _, hf⟩
  simp [fileWrites] at hf

/-- C4: (a) pre-seeding the DeltaFilter with every fetched commit sha as
fully_synced makes process_commits issue zero write calls; (b) per handler run,
the fully_synced marker appears in the trace exactly when the file block
completed and the commit was not already fully synced, and in that case it is
the last write, after every MODIFIES relationship of every file — so a partial
file failure never sets the marker. -/
theorem C4_commit_skip_and_marker_discipline :
    (∀ (persons : List Person) (syncedIds existing_shas : List String)
       (repo_name branch_id : String) (issueKeys : String → List String)
       (outcome : String → FilesOutcome) (commits : List CommitInput),
       (∀ c ∈ commits, c.sha ∈ existing_shas) →
       (process_commits persons syncedIds existing_shas repo_name branch_id issueKeys
          outcome commits).2 = [])
    ∧ (∀ (persons : List Person) (syncedIds : List String) (repo_name : String)
       (commit : CommitInput) (branch_id : String) (keys : List String)
       (fo : FilesOutcome),
       (WriteOp.markFullySyncedOp ("commit_" ++ repo_name ++ "_" ++ pyTake 8 commit.sha)
           ∈ (new_commit_handler persons syncedIds repo_name commit branch_id keys fo).2.2
         ↔ fo = FilesOutcome.ok
           ∧ is_commit_fully_synced syncedIds
               ("commit_" ++ repo_name ++ "_" ++ pyTake 8 commit.sha) = false)
       ∧ (fo = FilesOutcome.ok →
          is_commit_fully_synced syncedIds
              ("commit_" ++ repo_name ++ "_" ++ pyTake 8 commit.sha) = false →
          (new_commit_handler persons syncedIds repo_name commit branch_id keys fo).2.2.getLast?
              = some (WriteOp.markFullySyncedOp
                  ("commit_" ++ repo_name ++ "_" ++ pyTake 8 commit.sha))
            ∧ ∀ f ∈ commit.files,
                WriteOp.mergeRelationshipOp "MODIFIES"
                    ("commit_" ++ repo_name ++ "_" ++ pyTake 8 commit.sha)
                    (file_node_id repo_name f.filename)
                  ∈ (new_commit_handler persons syncedIds repo_name commit branch_id
                      keys fo).2.2)) := by
  constructor
  · intro persons syncedIds existing_shas repo_name branch_id issueKeys outcome commits hall
    have hfilter : commits.filter (fun c => !(existing_shas.contains c.sha)) = [] := by
      rw [List.filter_eq_nil_iff]
      intro c hc
      simp [hall c hc]
    simp only [process_commits]
    rw [hfilter]
    rfl
  · intro persons syncedIds repo_name commit branch_id keys fo
    by_cases hsync : is_commit_fully_synced syncedIds
        ("commit_" ++ repo_name ++ "_" ++ pyTake 8 commit.sha) = true
    · constructor
      · simp [new_commit_handler, hsync]
      · intro _ hfalse
        rw [hsync] at hfalse
        cases hfalse
    · have hsync' : is_commit_fully_synced syncedIds
          ("commit_" ++ repo_name ++ "_" ++ pyTake 8 commit.sha) = false := by
        simpa using hsync
      constructor
      · cases fo with
        | ok =>
            simp only [new_commit_handler, hsync', Bool.false_eq_true, if_false]
            constructor
            · intro _
              exact ⟨by trivial, by trivial⟩
            · intro _
              simp
        | fetchFailed =>
            simp only [new_commit_handler, hsync', Bool.false_eq_true, if_false]
            constructor
            · intro hmem
              exact absurd hmem
                (marker_not_in_commitHeadWrites persons commit _ branch_id keys _)
            · rintro ⟨h, _⟩
              cases h
        | failedAt k =>
            simp only [new_commit_handler, hsync', Bool.false_eq_true, if_false]
            constructor
            · intro hmem
              rcases List.mem_append.mp hmem with h | h
              · exact absurd h
                  (marker_not_in_commitHeadWrites persons commit _ branch_id keys _)
              · exact absurd h (marker_not_in_fileWrites_flatMap repo_name _ _ _)
            · rintro ⟨h, _⟩
              cases h
      · intro hok hfalse2
        subst hok
        constructor
        · simp only [new_commit_handler, hsync', Bool.false_eq_true, if_false]
          simp [List.getLast?_concat]
        · intro f hf
          simp only [new_commit_handler, hsync', Bool.false_eq_true, if_false]
          refine List.mem_append.mpr (Or.inl (List.mem_append.mpr (Or.inr ?_)))
          exact List.mem_flatMap.mpr ⟨f, hf, by simp [fileWrites]⟩

/-- Witness for C4: one pre-seeded commit is skipped with zero writes, and a
concrete handler run over one file ends with the marker write. -/
theorem C4_commit_skip_witness :
    ((∀ c ∈ [(⟨"abcdef1234", "msg", "t", CommitAuthor.unknownShape, []⟩ : CommitInput)],
        c.sha ∈ ["abcdef1234"])
      ∧ (process_commits [] [] ["abcdef1234"] "repo" "branch_repo_main" (fun _ => [])
          (fun _ => FilesOutcome.ok)
          [⟨"abcdef1234", "msg", "t", CommitAuthor.unknownShape, []⟩]).2 = [])
    ∧ (FilesOutcome.ok = FilesOutcome.ok
      ∧ is_commit_fully_synced [] ("commit_" ++ "repo" ++ "_" ++ pyTake 8 "abcdef1234") = false
      ∧ (new_commit_handler [] [] "repo"
          ⟨"abcdef1234", "msg", "t", CommitAuthor.unknownShape, [⟨"a.py", 1, 2⟩]⟩
          "branch_repo_main" [] FilesOutcome.ok).2.2.getLast?
          = some (WriteOp.markFullySyncedOp
              ("commit_" ++ "repo" ++ "_" ++ pyTake 8 "abcdef1234"))) :=
  ⟨⟨by decide,
    C4_commit_skip_and_marker_discipline.1 [] [] ["abcdef1234"] "repo" "branch_repo_main"
      (fun _ => []) (fun _ => FilesOutcome.ok)
      [⟨"abcdef1234", "msg", "t", CommitAuthor.unknownShape, []⟩] (by decide)⟩,
   rfl, by decide,
   ((C4_commit_skip_and_marker_discipline.2 [] [] "repo"
      ⟨"abcdef1234", "msg", "t", CommitAuthor.unknownShape, [⟨"a.py", 1, 2⟩]⟩
      "branch_repo_main" [] FilesOutcome.ok).2 rfl (by decide)).1⟩

/-- An Issue node: the stub sets only key/source/created_at
(new_commit_handler.py lines 233-239); the authoritative Jira write sets the
full field set (new_issue_handler.py lines 51-92). Option fields model unset
properties. -/
structure IssueNode where
  id : String
  key : Option String
  source : Option String
  type : Option String
  summary : Option String
  priority : Option String
  status : Option String
  story_points : Option Int
  created_at : Option String
  url : Option String
deriving Repr, DecidableEq

/-- src/modules/github/new_commit_handler.py get_or_create_issue_stub (lines
216-246): MERGE (i:Issue {id: "issue_" + key}) ON CREATE SET key, source =
'github_reference', created_at = datetime() — create-only upsert; now stands
for the store-side datetime(). -/
def get_or_create_issue_stub (store : List IssueNode) (issue_key : String)
    (now : String) : String × List IssueNode :=
  let issue_id := "issue_" ++ issue_key
  if store.any (fun n => n.id == issue_id) then
    (issue_id, store)
  else
    (issue_id, store ++ [⟨issue_id, some issue_key, some "github_reference",
      none, none, none, none, none, some now, none⟩])

/-- Modelled from the spec: db.models.merge_issue is not under src/; section 6
specifies an always-overwrite idempotent upsert keyed by the node id for
authoritative writes (the provenance value "jira" is what
scripts/find_stub_issues.py queries for enriched issues). -/
def merge_issue (store : List IssueNode) (n : IssueNode) : List IssueNode :=
  if store.any (fun q => q.id == n.id) then
    store.map (fun q => if q.id == n.id then n else q)
  else
    store ++ [n]

/-- src/modules/jira/new_issue_handler.py (lines 36-92), node-construction
portion: the authoritative Issue is keyed "issue_jira_" + the Jira internal
issue id and merged with the full field set. -/
def new_issue_authoritative (store : List IssueNode)
    (jira_issue_id issue_key issue_type summary priority status : String)
    (story_points : Int) (created : String) (url : Option String) :
    String × List IssueNode :=
  let issue_id := "issue_jira_" ++ jira_issue_id
  (issue_id, merge_issue store ⟨issue_id, some issue_key, some "jira",
    some issue_type, some summary, some priority, some status, some story_points,
    some created, url⟩)

/-- A Team node; the stub sets name/source/created_at
(team_stub_handler.py lines 23-28), the GitHub write the full set
(new_team_handler.py lines 41-49). -/
structure TeamNode where
  id : String
  name : Option String
  source : Option String
  target_size : Option Int
  created_at : Option String
  url : Option String
deriving Repr, DecidableEq

/-- team_stub_handler.py line 21: team id derived from the name,
name.lower().replace(' ', '_').replace('-', '_'). -/
def team_stub_id (team_name : String) : String :=
  "team_" ++ ⟨(pyLower team_name).data.map
    (fun ch => if ch == ' ' then '_' else if ch == '-' then '_' else ch)⟩

/-- src/modules/jira/team_stub_handler.py get_or_create_team_stub (lines 5-36):
MERGE (t:Team {id}) ON CREATE SET name, source = 'jira_reference',
created_at = date(); today stands for the store-side date(). -/
def get_or_create_team_stub (store : List TeamNode) (team_name : String)
    (today : String) : String × List TeamNode :=
  let team_id := team_stub_id team_name
  if store.any (fun n => n.id == team_id) then
    (team_id, store)
  else
    (team_id, store ++ [⟨team_id, some team_name, some "jira_reference", none,
      some today, none⟩])

/-- Modelled from the spec: db.models.merge_team is not under src/; section 6
specifies an always-overwrite idempotent upsert keyed by the node id (the
provenance value "github" is what scripts/find_stub_issues.py queries for
enriched teams). -/
def merge_team (store : List TeamNode) (n : TeamNode) : List TeamNode :=
  if store.any (fun q => q.id == n.id) then
    store.map (fun q => if q.id == n.id then n else q)
  else
    store ++ [n]

/-- src/modules/github/new_team_handler.py (lines 41-68), node-construction
portion: the authoritative Team is keyed "team_github_" + the GitHub slug. -/
def new_team_handler_team (store : List TeamNode)
    (team_slug team_name repo_created_at : String) (url : Option String) :
    String × List TeamNode :=
  let team_id := "team_github_" ++ team_slug
  (team_id, merge_team store ⟨team_id, some team_name, some "github", some 0,
    some repo_created_at, url⟩)

/-- C7 evaluation at the failing input: a stub for issue key PROJ-123 followed
by the authoritative Jira upsert of the same issue (internal id 10042) leaves
TWO Issue nodes — the canonical ids diverge (issue_PROJ-123 versus
issue_jira_10042) and the stub keeps its minimal fields, never enriched;
likewise team stub team_platform_team versus authoritative
team_github_platform-team. -/
theorem C7_stub_and_authoritative_ids_diverge :
    ((new_issue_authoritative (get_or_create_issue_stub [] "PROJ-123" "t0").2
        "10042" "PROJ-123" "Story" "Fix login" "High" "Done" 3 "2024-01-01" none).2.length
        = 2
      ∧ ((new_issue_authoritative (get_or_create_issue_stub [] "PROJ-123" "t0").2
          "10042" "PROJ-123" "Story" "Fix login" "High" "Done" 3 "2024-01-01" none).2.filter
            (fun n => n.key == some "PROJ-123")).length = 2
      ∧ (new_issue_authoritative (get_or_create_issue_stub [] "PROJ-123" "t0").2
          "10042" "PROJ-123" "Story" "Fix login" "High" "Done" 3 "2024-01-01" none).2.head?
          = some ⟨"issue_PROJ-123", some "PROJ-123", some "github_reference",
              none, none, none, none, none, some "t0", none⟩)
    ∧ (new_team_handler_team (get_or_create_team_stub [] "Platform Team" "d0").2
        "platform-team" "Platform Team" "2020-01-01" none).2.length = 2 := by
  refine ⟨⟨?_, ?_, ?_⟩, ?_⟩ <;> decide

/-- The steps of process_repo_ visible in its action trace. -/
inductive RepoAction where
  | createRepoNode
  | processCollaboratorsPass (ok : Bool)
  | processTeamsPass (ok : Bool)
  | processBranchesPass (ok : Bool)
  | processCommitsPass (ok : Bool)
  | processPullRequestsPass (ok : Bool)
  | updateLastSyncedAtCall
deriving Repr, DecidableEq

/-- Whether each step of a process_repo_ run succeeds: repository node
creation, then the five per-kind passes (each wrapped in its own try/except
that swallows the failure and continues). -/
structure RunOutcomes where
  repo_creation_ok : Bool
  collaborators_ok : Bool
  teams_ok : Bool
  branches_ok : Bool
  commits_ok : Bool
  pull_requests_ok : Bool
deriving Repr, DecidableEq

/-- src/modules/github/process_repo.py process_repo_ (lines 170-368),
control-flow skeleton: if repository-node creation fails the run raises
immediately (lines 176-178) and nothing else happens; otherwise every
entity-kind pass runs inside its own try/except that logs and continues
(lines 181-362), and step 7 (lines 364-368) calls update_last_synced_at
unconditionally at the end. Returns (actions in order, run raised?). -/
def process_repo_ (o : RunOutcomes) : List RepoAction × Bool :=
  if !o.repo_creation_ok then
    ([RepoAction.createRepoNode], true)
  else
    ([RepoAction.createRepoNode,
      RepoAction.processCollaboratorsPass o.collaborators_ok,
      RepoAction.processTeamsPass o.teams_ok,
      RepoAction.processBranchesPass o.branches_ok,
      RepoAction.processCommitsPass o.commits_ok,
      RepoAction.processPullRequestsPass o.pull_requests_ok,
      RepoAction.updateLastSyncedAtCall], false)

/-- C8 counterexample: a run whose commit pass fails (and is swallowed by its
try/except) still reaches step 7 and invokes update_last_synced_at, advancing
last_synced_at despite the partial failure. -/
theorem C8_counterexample_update_after_failed_pass :
    (⟨true, true, true, true, false, true⟩ : RunOutcomes).commits_ok = false
    ∧ RepoAction.updateLastSyncedAtCall
        ∈ (process_repo_ ⟨true, true, true, true, false, true⟩).1 := by
  constructor <;> decide

/-- C8 (amended): in process_repo_, update_last_synced_at is invoked exactly
when repository-node creation succeeded — every per-kind pass failure
(partial or total) is swallowed and does not prevent the marker from
advancing; only a RootEntityCreationFailure does. -/
theorem C8_amended_update_iff_root_created (o : RunOutcomes) :
    RepoAction.updateLastSyncedAtCall ∈ (process_repo_ o).1
      ↔ o.repo_creation_ok = true := by
  rcases o with ⟨rc, a, b, c, d, e⟩
  cases rc <;> simp [process_repo_]
